import Mathlib

/-!
Shallow embedding of the candidate matching engine of this repository,
src/mcp_server/recruitment_backend/candidate_matcher.py, together with
proofs about it.

Modelling conventions:
- Python dict-based candidate records with well-typed fields are modelled
  by the structure Candidate, whose fields are Option values: none models
  a missing key and is handled by the same defaults the source passes to
  dict.get at each access site.  An explicit Python null stored under a
  present key behaves differently from a missing key and is modelled
  separately by RawCandidate further below.
- Python floats are modelled by exact rationals.  Every constant of the
  source (0.5, 0.3, 0.2, 0.05 and the activity band increments) is a
  short decimal, and every comparison in the scoring is far from a
  floating point rounding boundary, so exact-rational arithmetic agrees
  with the source on everything stated here.
- The Python lower and title string methods are modelled for ASCII text.
-/

namespace CandidateMatcher

/-- ASCII model of the Python lower method on strings. -/
def pyLower (s : String) : String := String.mk (s.data.map Char.toLower)

/-- Helper for the title method: an alphabetic character is uppercased
when the preceding character is not alphabetic and lowercased otherwise;
the Boolean argument records whether the preceding character was
alphabetic. -/
def pyTitleAux : Bool → List Char → List Char
  | _, [] => []
  | prevCased, c :: cs =>
    (if c.isAlpha then (if prevCased then c.toLower else c.toUpper) else c)
      :: pyTitleAux c.isAlpha cs

/-- ASCII model of the Python title method on strings. -/
def pyTitle (s : String) : String := String.mk (pyTitleAux false s.data)

/-- Decides whether the first character list is an initial segment of the
second. -/
def startsSeg : List Char → List Char → Bool
  | [], _ => true
  | _ :: _, [] => false
  | a :: as, b :: bs => a == b && startsSeg as bs

/-- Decides whether the needle occurs as a contiguous segment of the
haystack. -/
def hasSeg (needle : List Char) : List Char → Bool
  | [] => startsSeg needle []
  | c :: cs => startsSeg needle (c :: cs) || hasSeg needle cs

/-- Model of the Python substring test, the in operator on strings. -/
def strIn (needle hay : String) : Bool := hasSeg needle.data hay.data

/-- Synonym table built in the constructor of the matcher, in source
order. -/
def skill_synonyms : List (String × List String) :=
  [("react", ["reactjs", "react.js", "react-native"]),
   ("vue", ["vuejs", "vue.js"]),
   ("angular", ["angularjs"]),
   ("frontend", ["front-end", "ui", "user-interface"]),
   ("node", ["nodejs", "node.js"]),
   ("backend", ["back-end", "server-side"]),
   ("api", ["rest", "graphql", "restful"]),
   ("kubernetes", ["k8s"]),
   ("ci/cd", ["cicd", "continuous-integration", "continuous-deployment"]),
   ("aws", ["amazon-web-services"]),
   ("javascript", ["js", "es6", "typescript"]),
   ("typescript", ["ts"]),
   ("python", ["py"])]

/-- Lookup of a key in the synonym table, modelling the dict membership
test and subscript of the source. -/
def synLookup (s : String) : Option (List String) :=
  (skill_synonyms.find? (fun p => p.1 == s)).map (fun p => p.2)

/-- Experience keyword table built in the constructor, in dict insertion
order junior, mid, senior. -/
def experience_keywords : List (String × List String) :=
  [("junior", ["junior", "entry", "1-3 years", "graduate"]),
   ("mid", ["mid", "intermediate", "3-5 years", "mid-level"]),
   ("senior", ["senior", "sr", "5+ years", "lead", "staff", "principal"])]

/-- Technology keyword vocabulary of extract_requirements, in source
order. -/
def tech_keywords : List String :=
  ["react", "vue", "angular", "javascript", "typescript", "python", "java",
   "go", "rust", "node", "django", "flask", "fastapi", "express",
   "kubernetes", "docker", "aws", "gcp", "azure", "terraform",
   "postgresql", "mongodb", "redis", "graphql", "rest", "api",
   "machine learning", "tensorflow", "pytorch", "data science",
   "mobile", "ios", "android", "react native"]

/-- Open source preference keywords of extract_requirements. -/
def open_source_keywords : List String :=
  ["open source", "open-source", "oss", "github", "contributions"]

/-- Location keywords of extract_requirements, in source order. -/
def location_keywords : List String :=
  ["remote", "san francisco", "new york", "seattle",
   "austin", "boston", "london", "berlin"]

/-- Characters of the ASCII whitespace class of the regex module. -/
def pySpace (c : Char) : Bool :=
  c == ' ' || c == '\t' || c == '\n' || c == '\r' || c == '\x0b' || c == '\x0c'

/-- Value of a list of decimal digit characters. -/
def digitsVal (ds : List Char) : Nat :=
  ds.foldl (fun n c => n * 10 + (c.toNat - 48)) 0

/-- Attempt of the years regex of extract_requirements at the start of
the character list: one or more digits, an optional plus sign, optional
whitespace, then the word year; the captured integer is returned on
success.  Greedy digit matching cannot backtrack usefully here since a
digit can satisfy none of the later regex tokens. -/
def yearsAt (cs : List Char) : Option Nat :=
  let ds := cs.takeWhile Char.isDigit
  if ds.isEmpty then none
  else
    let r1 := cs.dropWhile Char.isDigit
    let r2 := match r1 with
      | '+' :: r => r
      | r => r
    let r3 := r2.dropWhile pySpace
    if startsSeg ['y', 'e', 'a', 'r'] r3 then some (digitsVal ds) else none

/-- Leftmost match of the years regex, modelling the search function of
the regex module. -/
def searchYears : List Char → Option Nat
  | [] => none
  | c :: cs =>
    match yearsAt (c :: cs) with
    | some n => some n
    | none => searchYears cs

/-- Length of the longest common initial segment of two character
lists. -/
def lcpLen : List Char → List Char → Nat
  | a :: as, b :: bs => if a == b then lcpLen as bs + 1 else 0
  | _, _ => 0

/-- For a fixed start position in the first list, the best pair of match
length and start position in the second list: maximal length, ties
resolved toward the smallest start position. -/
def bestAt (a b : List Char) (i : Nat) : Nat × Nat :=
  (List.range b.length).foldl
    (fun acc j =>
      let k := lcpLen (a.drop i) (b.drop j)
      if acc.1 < k then (k, j) else acc)
    (0, 0)

/-- Longest matching block of two character lists as the triple of start
position in the first list, start position in the second list, and
length: maximal length with ties resolved toward the smallest first and
then smallest second start, which is the documented behaviour of the
difflib longest match search with an empty junk set. -/
def longestMatch (a b : List Char) : Nat × Nat × Nat :=
  (List.range a.length).foldl
    (fun acc i =>
      let kj := bestAt a b i
      if acc.2.2 < kj.1 then (i, kj.2, kj.1) else acc)
    (0, 0, 0)

/-- Total size of the recursively collected matching blocks, with fuel
bounding the recursion depth; fuel equal to the total length of the two
lists is always sufficient because every recursive call strictly shrinks
that total. -/
def matchTotal : Nat → List Char → List Char → Nat
  | 0, _, _ => 0
  | fuel + 1, a, b =>
    let ijk := longestMatch a b
    if ijk.2.2 == 0 then 0
    else
      ijk.2.2 + matchTotal fuel (a.take ijk.1) (b.take ijk.2.1)
        + matchTotal fuel (a.drop (ijk.1 + ijk.2.2)) (b.drop (ijk.2.1 + ijk.2.2))

/-- Ratcliff-Obershelp similarity of two strings, modelling the ratio
method of the difflib sequence matcher: twice the total matched size over
the total length, and 1 when both strings are empty. -/
def similarity (s t : String) : ℚ :=
  let la := s.length
  let lb := t.length
  if la + lb == 0 then 1
  else 2 * (matchTotal (la + lb) s.data t.data : ℚ) / ((la : ℚ) + (lb : ℚ))

/-- Model of the Python min built-in on two rationals, returning the
first argument when the two are equal exactly as the built-in does; it
agrees with the lattice min, see pyMin_eq_min, and is used in the
definitions because it evaluates by kernel reduction. -/
def pyMin (a b : ℚ) : ℚ := if a ≤ b then a else b

/-- Candidate profile record with well-typed fields; none models a
missing key. -/
structure Candidate where
  name : Option String := none
  github_username : Option String := none
  primary_language : Option String := none
  languages : Option (List String) := none
  skills : Option (List String) := none
  bio : Option String := none
  tech_stack_summary : Option String := none
  estimated_experience_level : Option String := none
  public_repos : Option Nat := none
  total_stars : Option Nat := none
  followers : Option Nat := none
  has_popular_repos : Option Bool := none
  open_source_contributor : Option Bool := none
  location : Option String := none
deriving DecidableEq

/-- Requirements record produced by extract_requirements. -/
structure Requirements where
  skills : List String
  experience_level : String
  min_years : Option Nat
  prefers_open_source : Bool
  location : Option String
  raw_text : String
deriving DecidableEq

/-- Loop of extract_requirements over the experience keyword table: the
first tier with any keyword occurring in the text wins, defaulting to
mid. -/
def findLevel : List (String × List String) → String → String
  | [], _ => "mid"
  | (level, kws) :: rest, text =>
    if kws.any (fun k => strIn k text) then level else findLevel rest text

/-- Model of extract_requirements. -/
def extract_requirements (job_description : String) : Requirements :=
  let text := pyLower job_description
  { skills := tech_keywords.filter (fun skill => strIn skill text)
    experience_level := findLevel experience_keywords text
    min_years := searchYears text.data
    prefers_open_source := open_source_keywords.any (fun k => strIn k text)
    location := location_keywords.find? (fun loc => strIn loc text)
    raw_text := text }

/-- Match test for one required skill against the expanded candidate
skill collection: direct membership, otherwise synonym membership when
the skill has a synonym entry, otherwise fuzzy similarity above 0.8. -/
def skillMatches (expanded : List String) (r : String) : Bool :=
  if expanded.contains r then true
  else
    match synLookup r with
    | some syns => syns.any (fun syn => expanded.contains syn)
    | none => expanded.any (fun cs => decide ((0.8 : ℚ) < similarity r cs))

/-- Body of calculate_skill_match after field access.  The source builds
a Python set of candidate skills; it is modelled as a list, because the
source only tests membership and existence over that set and both are
unaffected by duplicates and order. -/
def skill_match_core (langs skls : List String) (pl bio_text : String)
    (required_skills : List String) : ℚ × List String :=
  if required_skills = [] then (0.5, [])
  else
    let candidate_skills :=
      langs.map pyLower ++ skls.map pyLower ++ [pyLower pl]
        ++ required_skills.filter (fun s => strIn s bio_text)
    let expanded :=
      candidate_skills ++ candidate_skills.flatMap (fun s => (synLookup s).getD [])
    let matched := required_skills.filter (skillMatches expanded)
    ((matched.length : ℚ) / (required_skills.length : ℚ), matched)

/-- Model of calculate_skill_match on well-typed candidates. -/
def calculate_skill_match (c : Candidate) (required_skills : List String) :
    ℚ × List String :=
  skill_match_core (c.languages.getD []) (c.skills.getD [])
    (c.primary_language.getD (""))
    (pyLower ((c.bio.getD ("")) ++ " " ++ (c.tech_stack_summary.getD (""))))
    required_skills

/-- Level table of calculate_experience_match. -/
def level_order : List String := ["junior", "mid", "senior"]

/-- Model of the index method of Python lists under a try block: none
models the raised lookup error. -/
def listIndex (x : String) : List String → Option Nat
  | [] => none
  | y :: ys => if y == x then some 0 else (listIndex x ys).map (fun n => n + 1)

/-- Body of calculate_experience_match after field access.  The integer
branch conditions of the source are on possibly negative Python
integers; with indices in Nat the condition on the index being one below
the requirement is written with the successor on the left, which agrees
with the source since both indices are nonnegative. -/
def experience_match_core (candidate_level_raw required_level_raw : String) :
    ℚ × String :=
  let candidate_level := pyLower candidate_level_raw
  let required_level := pyLower required_level_raw
  match listIndex candidate_level level_order,
    listIndex required_level level_order with
  | some cand_idx, some req_idx =>
    if cand_idx = req_idx then
      (1, "Perfect match: " ++ pyTitle candidate_level ++ " level")
    else if cand_idx = req_idx + 1 then
      (0.9, "Overqualified: " ++ pyTitle candidate_level ++ " for "
        ++ pyTitle required_level ++ " role")
    else if cand_idx + 1 = req_idx then
      (0.7, "Slightly underqualified: " ++ pyTitle candidate_level ++ " for "
        ++ pyTitle required_level ++ " role")
    else
      (0.4, "Experience mismatch: " ++ pyTitle candidate_level ++ " vs "
        ++ pyTitle required_level ++ " required")
  | _, _ => (0.5, "Unable to determine experience match")

/-- Model of calculate_experience_match on well-typed candidates. -/
def calculate_experience_match (c : Candidate) (requirements : Requirements) :
    ℚ × String :=
  experience_match_core (c.estimated_experience_level.getD ("Mid"))
    requirements.experience_level

/-- Model of calculate_github_activity_score. -/
def calculate_github_activity_score (c : Candidate) : ℚ × List String :=
  let repos := c.public_repos.getD 0
  let rp : ℚ × List String :=
    if 50 < repos then (0.2, [toString repos ++ " public repositories"])
    else if 20 < repos then (0.15, [toString repos ++ " public repositories"])
    else if 10 < repos then (0.1, [])
    else (0, [])
  let stars := c.total_stars.getD 0
  let st : ℚ × List String :=
    if 500 < stars then (0.3, [toString stars ++ " GitHub stars"])
    else if 100 < stars then (0.2, [toString stars ++ " GitHub stars"])
    else if 50 < stars then (0.1, [])
    else (0, [])
  let fol := c.followers.getD 0
  let fo : ℚ × List String :=
    if 200 < fol then (0.2, [toString fol ++ " followers"])
    else if 100 < fol then (0.15, [])
    else if 50 < fol then (0.1, [])
    else (0, [])
  let pop : ℚ × List String :=
    if c.has_popular_repos.getD false then
      (0.15, ["Has popular open source projects"])
    else (0, [])
  let osc : ℚ × List String :=
    if c.open_source_contributor.getD false then
      (0.15, ["Active open source contributor"])
    else (0, [])
  (pyMin (rp.1 + st.1 + fo.1 + pop.1 + osc.1) 1,
    rp.2 ++ st.2 ++ fo.2 ++ pop.2 ++ osc.2)

/-- Floor of a rational, via floor division of numerator by
denominator. -/
def ratFloor (q : ℚ) : ℤ := Int.fdiv q.num (q.den : ℤ)

/-- Nearest integer with ties to even, the rounding of the Python round
built-in. -/
def roundHalfEven (q : ℚ) : ℤ :=
  let f := ratFloor q
  let r := q - (f : ℚ)
  if r < 1 / 2 then f
  else if 1 / 2 < r then f + 1
  else if f % 2 = 0 then f
  else f + 1

/-- Model of rounding to one decimal place. -/
def pyRound1 (q : ℚ) : ℚ := (roundHalfEven (q * 10) : ℚ) / 10

/-- Scored candidate entry assembled for each candidate inside
match_candidates. -/
structure ScoredCandidate where
  candidate : Candidate
  match_score : ℚ
  match_reasons : List String
  matched_skills : List String
  skill_score : ℚ
  experience_score : ℚ
  activity_score : ℚ
deriving DecidableEq

/-- Location bonus and reason of the scoring loop.  The two nested
location conditionals of the source are combined into one conjunction:
the bonus and its reason are produced exactly when the requested
location is truthy, the candidate location is truthy, and the former
occurs in the lowercased latter. -/
def locationPart (requirements : Requirements) (candidate : Candidate) :
    ℚ × List String :=
  match requirements.location, candidate.location with
  | some l, some cl =>
    if l ≠ "" ∧ cl ≠ "" ∧ strIn l (pyLower cl) then
      (0.05, ["✓ Location: " ++ cl])
    else (0, [])
  | _, _ => (0, [])

/-- Open source bonus of the scoring loop: granted exactly when open
source is preferred and the candidate is an open source contributor. -/
def ossBonus (requirements : Requirements) (candidate : Candidate) : ℚ :=
  if requirements.prefers_open_source
      && candidate.open_source_contributor.getD false then 0.05
  else 0

/-- Reason list of one scored candidate: the matched-skills line when
any skill matched, the experience reason unconditionally, up to two
activity reasons, then the location line when the location bonus
applies, truncated to the first four entries. -/
def matchReasons (requirements : Requirements) (candidate : Candidate) :
    List String :=
  let skill := calculate_skill_match candidate requirements.skills
  let expm := calculate_experience_match candidate requirements
  let act := calculate_github_activity_score candidate
  (((if skill.2 = [] then []
     else ["✓ Skills: " ++ String.intercalate (", ") (skill.2.take 5)])
      ++ ["✓ " ++ expm.2]
      ++ (act.2.take 2).map (fun r => "✓ " ++ r))
    ++ (locationPart requirements candidate).2).take 4

/-- Scoring of one candidate inside the loop of match_candidates. -/
def scoreCandidate (requirements : Requirements) (candidate : Candidate) :
    ScoredCandidate :=
  let skill := calculate_skill_match candidate requirements.skills
  let expm := calculate_experience_match candidate requirements
  let act := calculate_github_activity_score candidate
  let base := skill.1 * 0.5 + expm.1 * 0.3 + act.1 * 0.2
  let total := pyMin (base + (locationPart requirements candidate).1
    + ossBonus requirements candidate) 1
  { candidate := candidate
    match_score := pyRound1 (total * 100)
    match_reasons := matchReasons requirements candidate
    matched_skills := skill.2
    skill_score := pyRound1 (skill.1 * 100)
    experience_score := pyRound1 (expm.1 * 100)
    activity_score := pyRound1 (act.1 * 100) }

/-- Response record of match_candidates. -/
structure MatchResponse where
  total_matches : Nat
  search_query : String
  requirements : Requirements
  top_candidates : List ScoredCandidate
  showing : Nat
deriving DecidableEq

/-- Comparison for the two descending sorts, as a Boolean relation. -/
def scoreGe (a b : ScoredCandidate) : Bool := decide (b.match_score ≤ a.match_score)

/-- Insertion into a descending-sorted list, placing the new element
before the first entry it is greater than or equal to. -/
def insertDesc (x : ScoredCandidate) : List ScoredCandidate → List ScoredCandidate
  | [] => [x]
  | y :: ys => if scoreGe x y then x :: y :: ys else y :: insertDesc x ys

/-- Descending stable insertion sort by match score, modelling the
stable in-place Python sort with a reversed score key; an element is
placed before every equal-scored element that originally came later, so
ties keep their original relative order exactly as in the source. -/
def sortByScore : List ScoredCandidate → List ScoredCandidate
  | [] => []
  | x :: xs => insertDesc x (sortByScore xs)

/-- Deduplication modelling the composition of the list and set
constructors.  The iteration order of a set of strings is a fixed
function of its elements within one interpreter process, which is all
the development relies on; first occurrence order is chosen. -/
def pySetList (xs : List String) : List String := xs.eraseDups

/-- Requirements used for scoring: extracted from the description, with
the skills of a non-empty title merged in and deduplicated, exactly as
at the top of match_candidates. -/
def effectiveRequirements (job_description job_title : String) : Requirements :=
  let requirements := extract_requirements job_description
  if job_title ≠ "" then
    { requirements with
        skills := pySetList
          (requirements.skills ++ (extract_requirements job_title).skills) }
  else requirements

/-- First 200 characters of a string, modelling the Python slice by code
points. -/
def pyTake200 (s : String) : String := String.mk (s.data.take 200)

/-- Model of match_candidates.  The single call to the sample function
of the random module is modelled by the sample parameter, so that
properties can be stated for an arbitrary sampler; the source counts
matches over the full scored list after the in-place sort, which is the
list named scored_candidates here. -/
def match_candidates (sample : List ScoredCandidate → Nat → List ScoredCandidate)
    (candidates : List Candidate) (job_description : String)
    (job_title : String) (limit : Nat) : MatchResponse :=
  let requirements := effectiveRequirements job_description job_title
  let scored_candidates := sortByScore (candidates.map (scoreCandidate requirements))
  let window_size := min scored_candidates.length (max (limit * 5) limit)
  let candidate_window := scored_candidates.take window_size
  let selected :=
    if candidate_window.length ≤ limit then candidate_window
    else sample candidate_window limit
  let top_candidates := sortByScore selected
  { total_matches :=
      (scored_candidates.filter (fun c => decide (50 < c.match_score))).length
    search_query := pyTake200 job_description
    requirements := requirements
    top_candidates := top_candidates
    showing := top_candidates.length }

/-- Three-state field value for the null-robustness analysis: a dict key
can be absent, present with the Python null value, or present with a
well-typed value. -/
inductive PyOpt (α : Type) where
  | absent : PyOpt α
  | null : PyOpt α
  | val : α → PyOpt α
deriving DecidableEq

/-- Candidate record as the raw dict, for the fields whose handling of an
explicit null differs from the handling of a missing key in the
source. -/
structure RawCandidate where
  languages : PyOpt (List String) := PyOpt.absent
  skills : PyOpt (List String) := PyOpt.absent
  primary_language : PyOpt String := PyOpt.absent
  bio : PyOpt String := PyOpt.absent
  tech_stack_summary : PyOpt String := PyOpt.absent
  estimated_experience_level : PyOpt String := PyOpt.absent
deriving DecidableEq

/-- Model of iterating over a field fetched with an empty list default:
a missing key iterates the default, while a null value raises a type
error because the null value is not iterable. -/
def rawIter : PyOpt (List String) → Except String (List String)
  | PyOpt.absent => Except.ok []
  | PyOpt.null => Except.error "TypeError"
  | PyOpt.val xs => Except.ok xs

/-- Model of calling the lower method on a field fetched with a string
default: a missing key yields the default, while a null value raises an
attribute error because the null value has no lower method. -/
def rawStrGet (dflt : String) : PyOpt String → Except String String
  | PyOpt.absent => Except.ok dflt
  | PyOpt.null => Except.error "AttributeError"
  | PyOpt.val s => Except.ok s

/-- Model of fetching a field and coalescing falsy values to the empty
string, the pattern the source uses for bio and tech_stack_summary:
both a missing key and a null value become the empty string without
raising. -/
def rawOrEmpty : PyOpt String → String
  | PyOpt.absent => ""
  | PyOpt.null => ""
  | PyOpt.val s => s

/-- Model of calculate_skill_match on the raw dict, with raised
exceptions surfaced in the error case.  Field access happens after the
early return for an empty required list, in source order: languages,
then skills, then primary_language. -/
def raw_calculate_skill_match (c : RawCandidate)
    (required_skills : List String) : Except String (ℚ × List String) :=
  if required_skills = [] then Except.ok (0.5, [])
  else
    match rawIter c.languages with
    | Except.error e => Except.error e
    | Except.ok langs =>
      match rawIter c.skills with
      | Except.error e => Except.error e
      | Except.ok skls =>
        match rawStrGet ("") c.primary_language with
        | Except.error e => Except.error e
        | Except.ok pl =>
          Except.ok (skill_match_core langs skls pl
            (pyLower (rawOrEmpty c.bio ++ " " ++ rawOrEmpty c.tech_stack_summary))
            required_skills)

/-- Model of calculate_experience_match on the raw dict.  The lower call
on the fetched candidate level happens before the try block of the
source, so a null level raises out of the function instead of reaching
the fallback return. -/
def raw_calculate_experience_match (c : RawCandidate)
    (requirements : Requirements) : Except String (ℚ × String) :=
  match rawStrGet ("Mid") c.estimated_experience_level with
  | Except.error e => Except.error e
  | Except.ok lvl =>
    Except.ok (experience_match_core lvl requirements.experience_level)

/-!
Shared helper definitions and lemmas for the claim proofs.
-/

/-- Candidate record whose only present field is a public repo count,
used for the activity band boundary analysis. -/
def repoOnly (n : Nat) : Candidate := { public_repos := some n }

/-- Candidate record whose only present field lists one language. -/
def reactOnly : Candidate := { languages := some ["react"] }

/-- Requirements record asking for a mid level with no skills. -/
def reqMid : Requirements :=
  { skills := [], experience_level := "mid", min_years := none,
    prefers_open_source := false, location := none, raw_text := "" }

/-- Sampler membership: every sampler modelling the sample function of
the random module returns elements of its input population. -/
def SampleOk (sample : List ScoredCandidate → Nat → List ScoredCandidate) : Prop :=
  ∀ xs n, ∀ x ∈ sample xs n, x ∈ xs

lemma sampleTake_ok : SampleOk (fun xs n => xs.take n) :=
  fun _ _ _ hx => List.mem_of_mem_take hx

lemma pyMin_eq_min (a b : ℚ) : pyMin a b = min a b := (min_def a b).symm

lemma insertDesc_perm (x : ScoredCandidate) :
    ∀ l : List ScoredCandidate, (insertDesc x l).Perm (x :: l) := by
  intro l
  induction l with
  | nil => exact List.Perm.refl _
  | cons y ys ih =>
    rw [insertDesc]
    split
    · exact List.Perm.refl _
    · exact (ih.cons y).trans (List.Perm.swap x y ys)

lemma sortByScore_perm (l : List ScoredCandidate) : (sortByScore l).Perm l := by
  induction l with
  | nil => exact List.Perm.refl _
  | cons x xs ih =>
    rw [sortByScore]
    exact (insertDesc_perm x (sortByScore xs)).trans (ih.cons x)

lemma sortByScore_length (l : List ScoredCandidate) :
    (sortByScore l).length = l.length := (sortByScore_perm l).length_eq

lemma mem_sortByScore {a : ScoredCandidate} {l : List ScoredCandidate} :
    a ∈ sortByScore l ↔ a ∈ l := (sortByScore_perm l).mem_iff

lemma pairwise_insertDesc {x : ScoredCandidate} {l : List ScoredCandidate}
    (h : l.Pairwise (fun a b => b.match_score ≤ a.match_score)) :
    (insertDesc x l).Pairwise (fun a b => b.match_score ≤ a.match_score) := by
  induction l with
  | nil => simp [insertDesc]
  | cons y ys ih =>
    rw [List.pairwise_cons] at h
    obtain ⟨hy, hys⟩ := h
    rw [insertDesc]
    split
    · rename_i hxy
      have hxy2 : y.match_score ≤ x.match_score := of_decide_eq_true hxy
      refine List.pairwise_cons.mpr ⟨?_, List.pairwise_cons.mpr ⟨hy, hys⟩⟩
      intro z hz
      rcases List.mem_cons.mp hz with rfl | hz2
      · exact hxy2
      · exact (hy z hz2).trans hxy2
    · rename_i hxy
      have hxy2 : ¬ y.match_score ≤ x.match_score := by
        simpa [scoreGe] using hxy
      refine List.pairwise_cons.mpr ⟨?_, ih hys⟩
      intro z hz
      rcases List.mem_cons.mp ((insertDesc_perm x ys).mem_iff.mp hz) with rfl | hz2
      · exact (lt_of_not_le hxy2).le
      · exact hy z hz2

lemma sortByScore_pairwise (l : List ScoredCandidate) :
    (sortByScore l).Pairwise (fun a b => b.match_score ≤ a.match_score) := by
  induction l with
  | nil => simp [sortByScore]
  | cons x xs ih =>
    rw [sortByScore]
    exact pairwise_insertDesc ih

/-!
Claims C2 and C3.
-/

unseal Rat.add Rat.mul Rat.sub Rat.inv Rat.ofScientific in
/-- C2 (code bug evidence).  The spec demands that a candidate field that
is missing or null is treated as a neutral default and never raises.
Missing keys are indeed defaulted, but a present key holding the Python
null value raises out of the scoring: iterating a null languages or
skills list raises a type error in calculate_skill_match, and calling
the lower method on a null experience level raises an attribute error in
calculate_experience_match before its try block.  The last two conjuncts
record that the same calls succeed when the fields are merely absent. -/
theorem null_candidate_fields_raise :
    raw_calculate_skill_match { languages := PyOpt.null } ["react"]
        = Except.error "TypeError" ∧
      raw_calculate_experience_match { estimated_experience_level := PyOpt.null }
          reqMid = Except.error "AttributeError" ∧
      raw_calculate_skill_match {} ["react"] = Except.ok (0, []) ∧
      raw_calculate_experience_match {} reqMid
        = Except.ok (1, "Perfect match: Mid level") := by
  exact ⟨rfl, rfl, rfl, rfl⟩

unseal Rat.add Rat.mul Rat.sub Rat.inv Rat.ofScientific in
/-- C3 counterexample.  A candidate with exactly 50 public repos, no
stars, no followers and no flags scores 0.15, not 0.1 as the claim
states: 50 is not above 50, so the branch for counts above 20 applies
and adds 0.15. -/
theorem activity_score_at_50_counterexample :
    (calculate_github_activity_score (repoOnly 50)).1 = 0.15 ∧
      ¬ (calculate_github_activity_score (repoOnly 50)).1 = 0.1 := by
  constructor <;> decide

unseal Rat.add Rat.mul Rat.sub Rat.inv Rat.ofScientific in
/-- C3 amended.  A candidate with exactly 50 public repos and no other
activity signals scores exactly 0.15, with 51 repos exactly 0.2, and the
repo band boundaries are strict inequalities on the lower bounds 10, 20
and 50, as the boundary values 10, 11, 20, 21, 50, 51 witness. -/
theorem activity_score_repo_boundaries :
    (calculate_github_activity_score (repoOnly 10)).1 = 0 ∧
      (calculate_github_activity_score (repoOnly 11)).1 = 0.1 ∧
      (calculate_github_activity_score (repoOnly 20)).1 = 0.1 ∧
      (calculate_github_activity_score (repoOnly 21)).1 = 0.15 ∧
      (calculate_github_activity_score (repoOnly 50)).1 = 0.15 ∧
      (calculate_github_activity_score (repoOnly 51)).1 = 0.2 := by
  refine ⟨?_, ?_, ?_, ?_, ?_, ?_⟩ <;> decide

/-!
Claim C4.
-/

/-- C4: over candidate levels inside the junior, mid, senior table
(case-insensitive) and required levels inside the table, the experience
score is exactly 1.0 on an exact tier match, 0.9 with the candidate one
tier above the requirement, 0.7 one tier below, and 0.4 otherwise, that
is, two tiers apart; and for a candidate level string outside the table
the result is exactly the neutral fallback pair, without raising. -/
theorem experience_match_table (c : Candidate) (req : Requirements)
    (cs : String) (hc : c.estimated_experience_level = some cs)
    (ci ri : Nat)
    (hci : listIndex (pyLower cs) level_order = some ci)
    (hri : listIndex (pyLower req.experience_level) level_order = some ri) :
    ((calculate_experience_match c req).1 =
        if ci = ri then 1 else if ci = ri + 1 then 0.9
        else if ci + 1 = ri then 0.7 else 0.4) ∧
      ∀ (c2 : Candidate) (cs2 : String),
        c2.estimated_experience_level = some cs2 →
        listIndex (pyLower cs2) level_order = none →
        calculate_experience_match c2 req
          = (0.5, "Unable to determine experience match") := by
  constructor
  · have h1 : c.estimated_experience_level.getD ("Mid") = cs := by rw [hc]; rfl
    simp only [calculate_experience_match, experience_match_core, h1, hci, hri]
    split_ifs <;> rfl
  · intro c2 cs2 hc2 hn
    have h2 : c2.estimated_experience_level.getD ("Mid") = cs2 := by rw [hc2]; rfl
    simp only [calculate_experience_match, experience_match_core, h2, hn]

unseal Rat.add Rat.mul Rat.sub Rat.inv Rat.ofScientific in
/-- Witness for C4: a senior candidate against a mid requirement scores
exactly 0.9, and an unrecognized candidate level yields the neutral
fallback pair. -/
theorem experience_match_table_witness :
    (calculate_experience_match
        { estimated_experience_level := some ("Senior") } reqMid).1 = 0.9 ∧
      calculate_experience_match
          { estimated_experience_level := some ("wizard") } reqMid
        = (0.5, "Unable to determine experience match") := by
  obtain ⟨h1, h2⟩ := experience_match_table
    { estimated_experience_level := some ("Senior") } reqMid ("Senior") rfl 2 1
    (by decide) (by decide)
  refine ⟨?_, h2 { estimated_experience_level := some ("wizard") } ("wizard")
    rfl (by decide)⟩
  rw [h1]
  norm_num

/-!
Claim C5.
-/

lemma skill_match_core_snd_sublist (langs skls : List String) (pl bt : String)
    (req : List String) :
    ((skill_match_core langs skls pl bt req).2).Sublist req := by
  by_cases h : req = []
  · subst h; simp [skill_match_core]
  · simp only [skill_match_core, if_neg h]
    exact List.filter_sublist req

lemma skill_match_core_fst_eq (langs skls : List String) (pl bt : String)
    {req : List String} (h : req ≠ []) :
    (skill_match_core langs skls pl bt req).1
      = (((skill_match_core langs skls pl bt req).2).length : ℚ)
        / (req.length : ℚ) := by
  simp only [skill_match_core, if_neg h]

unseal Rat.add Rat.mul Rat.sub Rat.inv Rat.ofScientific in
/-- C5 counterexample: with the duplicated required list containing
react twice and a candidate knowing react, the matched skill list
contains react twice, so a required skill can occur more than once in
the matched list, contrary to the claim over every required list. -/
theorem matched_skills_duplicate_counterexample :
    (calculate_skill_match reactOnly ["react", "react"]).2.count ("react") = 2 ∧
      ¬ (∀ s, (calculate_skill_match reactOnly ["react", "react"]).2.count s ≤ 1) := by
  refine ⟨by decide, fun h => absurd (h ("react")) (by decide)⟩

/-- C5 amended: for a required list without duplicates, the score is
between 0 and 1, the matched list is contained in the required list with
each skill occurring at most once, the score equals the matched count
divided by the required count when the required list is non-empty, and
the empty required list yields exactly the neutral pair.  The only
amendment forced by the counterexample is the restriction to required
lists without duplicates in the at-most-once conjunct; match_candidates
only ever passes deduplicated keyword lists. -/
theorem skill_match_bounds (c : Candidate) (required_skills : List String)
    (hnd : required_skills.Nodup) :
    0 ≤ (calculate_skill_match c required_skills).1 ∧
      (calculate_skill_match c required_skills).1 ≤ 1 ∧
      (∀ s ∈ (calculate_skill_match c required_skills).2, s ∈ required_skills) ∧
      (∀ s, (calculate_skill_match c required_skills).2.count s ≤ 1) ∧
      (required_skills ≠ [] →
        (calculate_skill_match c required_skills).1
          = ((calculate_skill_match c required_skills).2.length : ℚ)
            / (required_skills.length : ℚ)) ∧
      calculate_skill_match c [] = (0.5, []) := by
  have hempty : calculate_skill_match c [] = (0.5, []) := by
    simp [calculate_skill_match, skill_match_core]
  have hsub : ((calculate_skill_match c required_skills).2).Sublist required_skills :=
    skill_match_core_snd_sublist _ _ _ _ _
  by_cases hreq : required_skills = []
  · subst hreq
    rw [hempty]
    refine ⟨by norm_num, by norm_num, by simp, by simp, fun h => absurd rfl h, hempty⟩
  · have hfst : (calculate_skill_match c required_skills).1
        = (((calculate_skill_match c required_skills).2).length : ℚ)
          / (required_skills.length : ℚ) :=
      skill_match_core_fst_eq _ _ _ _ hreq
    have hlen : (0 : ℚ) < (required_skills.length : ℚ) := by
      exact_mod_cast List.length_pos.mpr hreq
    refine ⟨?_, ?_, ?_, ?_, fun _ => hfst, hempty⟩
    · rw [hfst]
      exact div_nonneg (Nat.cast_nonneg _) (Nat.cast_nonneg _)
    · rw [hfst, div_le_one hlen]
      exact_mod_cast hsub.length_le
    · exact fun s hs => hsub.subset hs
    · exact fun s =>
        le_trans (hsub.count_le s) (List.nodup_iff_count_le_one.mp hnd s)

unseal Rat.add Rat.mul Rat.sub Rat.inv Rat.ofScientific in
/-- Witness for C5 at a concrete candidate and duplicate-free required
list. -/
theorem skill_match_bounds_witness :
    0 ≤ (calculate_skill_match reactOnly ["react"]).1 ∧
      (calculate_skill_match reactOnly ["react"]).1 ≤ 1 ∧
      (calculate_skill_match reactOnly ["react"]).1
        = ((calculate_skill_match reactOnly ["react"]).2.length : ℚ) / 1 := by
  obtain ⟨h1, h2, h3, h4, h5, h6⟩ :=
    skill_match_bounds reactOnly ["react"] (by decide)
  refine ⟨h1, h2, ?_⟩
  simpa using h5 (by decide)

/-!
Claim C8.
-/

/-- C8: the extracted experience level is determined by iterating the
tiers in the fixed order junior, mid, senior and returning the first
tier any of whose keywords occurs as a substring of the lowercased text,
defaulting to mid when no tier keyword occurs; consequently a
description containing both a junior tier keyword and a senior tier
keyword extracts the junior level. -/
theorem experience_level_first_tier (job_description : String) :
    ((extract_requirements job_description).experience_level =
        if (["junior", "entry", "1-3 years", "graduate"]).any
            (fun k => strIn k (pyLower job_description)) then "junior"
        else if (["mid", "intermediate", "3-5 years", "mid-level"]).any
            (fun k => strIn k (pyLower job_description)) then "mid"
        else if (["senior", "sr", "5+ years", "lead", "staff", "principal"]).any
            (fun k => strIn k (pyLower job_description)) then "senior"
        else "mid") ∧
      ((∃ k ∈ ["junior", "entry", "1-3 years", "graduate"],
          strIn k (pyLower job_description) = true) →
        (∃ k ∈ ["senior", "sr", "5+ years", "lead", "staff", "principal"],
          strIn k (pyLower job_description) = true) →
        (extract_requirements job_description).experience_level = "junior") := by
  have hmain : (extract_requirements job_description).experience_level =
      if (["junior", "entry", "1-3 years", "graduate"]).any
          (fun k => strIn k (pyLower job_description)) then "junior"
      else if (["mid", "intermediate", "3-5 years", "mid-level"]).any
          (fun k => strIn k (pyLower job_description)) then "mid"
      else if (["senior", "sr", "5+ years", "lead", "staff", "principal"]).any
          (fun k => strIn k (pyLower job_description)) then "senior"
      else "mid" := rfl
  refine ⟨hmain, fun hj _ => ?_⟩
  rw [hmain, if_pos (List.any_eq_true.mpr hj)]

/-- Witness for C8 on a description containing keywords of both the
junior and the senior tier. -/
theorem experience_level_first_tier_witness :
    (extract_requirements ("junior or senior role")).experience_level = "junior" :=
  (experience_level_first_tier ("junior or senior role")).2 (by decide) (by decide)

/-!
Claims C6 and C7.
-/

lemma total_matches_eq (sample : List ScoredCandidate → Nat → List ScoredCandidate)
    (candidates : List Candidate) (job_description job_title : String)
    (limit : Nat) :
    (match_candidates sample candidates job_description job_title limit).total_matches
      = ((candidates.map (scoreCandidate
          (effectiveRequirements job_description job_title))).filter
          (fun c => decide (50 < c.match_score))).length := by
  simp only [match_candidates]
  exact ((sortByScore_perm _).filter _).length_eq

/-- C6: the total match count of the response is the number of
candidates in the full scored pool whose match score is strictly above
50; it is computed before the windowing and sampling and is therefore
independent of the limit and of the sampler. -/
theorem total_matches_full_pool
    (sample1 sample2 : List ScoredCandidate → Nat → List ScoredCandidate)
    (candidates : List Candidate) (job_description job_title : String)
    (limit1 limit2 : Nat) :
    (match_candidates sample1 candidates job_description job_title
          limit1).total_matches
        = ((candidates.map (scoreCandidate
            (effectiveRequirements job_description job_title))).filter
            (fun c => decide (50 < c.match_score))).length ∧
      (match_candidates sample1 candidates job_description job_title
          limit1).total_matches
        = (match_candidates sample2 candidates job_description job_title
            limit2).total_matches :=
  ⟨total_matches_eq sample1 candidates job_description job_title limit1,
    (total_matches_eq sample1 candidates job_description job_title limit1).trans
      (total_matches_eq sample2 candidates job_description job_title limit2).symm⟩

lemma match_candidates_small
    (sample : List ScoredCandidate → Nat → List ScoredCandidate)
    (candidates : List Candidate) (d t : String) (limit : Nat)
    (h : candidates.length ≤ limit) :
    match_candidates sample candidates d t limit =
      { total_matches := ((sortByScore (candidates.map (scoreCandidate
            (effectiveRequirements d t)))).filter
            (fun c => decide (50 < c.match_score))).length
        search_query := pyTake200 d
        requirements := effectiveRequirements d t
        top_candidates := sortByScore (sortByScore (candidates.map (scoreCandidate
          (effectiveRequirements d t))))
        showing := (sortByScore (sortByScore (candidates.map (scoreCandidate
          (effectiveRequirements d t))))).length } := by
  have hlen : (sortByScore (candidates.map (scoreCandidate
      (effectiveRequirements d t)))).length = candidates.length := by
    rw [sortByScore_length, List.length_map]
  have hws : min (sortByScore (candidates.map (scoreCandidate
        (effectiveRequirements d t)))).length (max (limit * 5) limit)
      = (sortByScore (candidates.map (scoreCandidate
        (effectiveRequirements d t)))).length :=
    Nat.min_eq_left (by rw [hlen]; exact h.trans (Nat.le_max_right _ _))
  have htake : (sortByScore (candidates.map (scoreCandidate
        (effectiveRequirements d t)))).take
        (min (sortByScore (candidates.map (scoreCandidate
          (effectiveRequirements d t)))).length (max (limit * 5) limit))
      = sortByScore (candidates.map (scoreCandidate
          (effectiveRequirements d t))) := by
    rw [hws]
    exact List.take_length _
  simp only [match_candidates, htake]
  rw [if_pos (show (sortByScore (candidates.map (scoreCandidate
    (effectiveRequirements d t)))).length ≤ limit by rw [hlen]; exact h)]

/-- C7: when the pool is no larger than the limit, the response contains
exactly one entry per candidate, sorted descending by match score, the
sampler is never consulted so the result is the same for every sampler,
and the empty pool yields a well-formed response with zero counts and an
empty top list. -/
theorem small_pool_deterministic
    (sample1 sample2 : List ScoredCandidate → Nat → List ScoredCandidate)
    (candidates : List Candidate) (job_description job_title : String)
    (limit : Nat) (h : candidates.length ≤ limit) :
    (match_candidates sample1 candidates job_description job_title
          limit).top_candidates.length = candidates.length ∧
      (match_candidates sample1 candidates job_description job_title
          limit).top_candidates.Pairwise
        (fun a b => b.match_score ≤ a.match_score) ∧
      match_candidates sample1 candidates job_description job_title limit
        = match_candidates sample2 candidates job_description job_title limit ∧
      (match_candidates sample1 ([] : List Candidate) job_description job_title
          limit).total_matches = 0 ∧
      (match_candidates sample1 ([] : List Candidate) job_description job_title
          limit).top_candidates = [] ∧
      (match_candidates sample1 ([] : List Candidate) job_description job_title
          limit).showing = 0 := by
  have h1 := match_candidates_small sample1 candidates job_description job_title
    limit h
  have h2 := match_candidates_small sample2 candidates job_description job_title
    limit h
  have h0 := match_candidates_small sample1 [] job_description job_title limit
    (Nat.zero_le _)
  refine ⟨?_, ?_, h1.trans h2.symm, ?_, ?_, ?_⟩
  · rw [h1]
    simp only [sortByScore_length, List.length_map]
  · rw [h1]
    exact sortByScore_pairwise _
  · rw [h0]; simp [sortByScore]
  · rw [h0]; simp [sortByScore]
  · rw [h0]; simp [sortByScore]

/-- Witness for C7 with a one-candidate pool, two different samplers and
the default limit. -/
theorem small_pool_deterministic_witness :
    (match_candidates (fun xs n => xs.take n) [reactOnly] ("python") ("")
        8).top_candidates.length = 1 ∧
      match_candidates (fun xs n => xs.take n) [reactOnly] ("python") ("") 8
        = match_candidates (fun xs n => xs.drop n) [reactOnly] ("python") ("") 8 ∧
      (match_candidates (fun xs n => xs.take n) ([] : List Candidate) ("python")
          ("") 8).showing = 0 := by
  obtain ⟨h1, h2, h3, h4, h5, h6⟩ := small_pool_deterministic
    (fun xs n => xs.take n) (fun xs n => xs.drop n) [reactOnly] ("python") ("") 8
    (by norm_num)
  exact ⟨by simpa using h1, h3, h6⟩

/-!
Claim C9.
-/

lemma scoreCandidate_ext {r1 r2 : Requirements}
    (hsk : r1.skills = r2.skills)
    (hex : r1.experience_level = r2.experience_level)
    (hos : r1.prefers_open_source = r2.prefers_open_source)
    (hlo : r1.location = r2.location) (c : Candidate) :
    scoreCandidate r1 c = scoreCandidate r2 c := by
  obtain ⟨s1, e1, m1, o1, l1, t1⟩ := r1
  obtain ⟨s2, e2, m2, o2, l2, t2⟩ := r2
  obtain rfl : s1 = s2 := hsk
  obtain rfl : e1 = e2 := hex
  obtain rfl : o1 = o2 := hos
  obtain rfl : l1 = l2 := hlo
  rfl

/-- C9: the extracted min_years and raw_text fields have no influence on
scoring: whenever two job descriptions extract to requirements agreeing
on skills, experience level, open source preference and location, every
candidate receives the same scored record, and the resulting responses
have the same ranked candidates and total match count. -/
theorem min_years_raw_text_no_influence (d1 d2 job_title : String)
    (hsk : (extract_requirements d1).skills = (extract_requirements d2).skills)
    (hex : (extract_requirements d1).experience_level
      = (extract_requirements d2).experience_level)
    (hos : (extract_requirements d1).prefers_open_source
      = (extract_requirements d2).prefers_open_source)
    (hlo : (extract_requirements d1).location
      = (extract_requirements d2).location)
    (sample : List ScoredCandidate → Nat → List ScoredCandidate)
    (candidates : List Candidate) (limit : Nat) :
    (∀ c : Candidate,
        scoreCandidate (effectiveRequirements d1 job_title) c
          = scoreCandidate (effectiveRequirements d2 job_title) c) ∧
      (match_candidates sample candidates d1 job_title limit).top_candidates
        = (match_candidates sample candidates d2 job_title limit).top_candidates ∧
      (match_candidates sample candidates d1 job_title limit).total_matches
        = (match_candidates sample candidates d2 job_title limit).total_matches := by
  have e1 : (effectiveRequirements d1 job_title).skills
      = (effectiveRequirements d2 job_title).skills := by
    by_cases ht : job_title = "" <;> simp [effectiveRequirements, ht, hsk]
  have e2 : (effectiveRequirements d1 job_title).experience_level
      = (effectiveRequirements d2 job_title).experience_level := by
    by_cases ht : job_title = "" <;> simp [effectiveRequirements, ht, hex]
  have e3 : (effectiveRequirements d1 job_title).prefers_open_source
      = (effectiveRequirements d2 job_title).prefers_open_source := by
    by_cases ht : job_title = "" <;> simp [effectiveRequirements, ht, hos]
  have e4 : (effectiveRequirements d1 job_title).location
      = (effectiveRequirements d2 job_title).location := by
    by_cases ht : job_title = "" <;> simp [effectiveRequirements, ht, hlo]
  have hpc : ∀ c : Candidate,
      scoreCandidate (effectiveRequirements d1 job_title) c
        = scoreCandidate (effectiveRequirements d2 job_title) c :=
    fun c => scoreCandidate_ext e1 e2 e3 e4 c
  have hmap : candidates.map (scoreCandidate (effectiveRequirements d1 job_title))
      = candidates.map (scoreCandidate (effectiveRequirements d2 job_title)) :=
    List.map_congr_left (fun c _ => hpc c)
  refine ⟨hpc, ?_, ?_⟩ <;> simp only [match_candidates, hmap]

/-- Witness for C9: two descriptions that agree on all scoring-relevant
extracted fields but extract different minimum year counts yield
identical rankings and counts. -/
theorem min_years_raw_text_no_influence_witness :
    (extract_requirements ("python 3 years")).min_years
        ≠ (extract_requirements ("python 4 years")).min_years ∧
      (match_candidates (fun xs n => xs.take n) [reactOnly] ("python 3 years")
          ("") 8).top_candidates
        = (match_candidates (fun xs n => xs.take n) [reactOnly]
            ("python 4 years") ("") 8).top_candidates ∧
      (match_candidates (fun xs n => xs.take n) [reactOnly] ("python 3 years")
          ("") 8).total_matches
        = (match_candidates (fun xs n => xs.take n) [reactOnly]
            ("python 4 years") ("") 8).total_matches := by
  obtain ⟨h1, h2, h3⟩ := min_years_raw_text_no_influence ("python 3 years")
    ("python 4 years") ("") (by decide) (by decide) (by decide) (by decide)
    (fun xs n => xs.take n) [reactOnly] 8
  exact ⟨by decide, h2, h3⟩

/-!
Claim C10.
-/

lemma mem_top_candidates
    {sample : List ScoredCandidate → Nat → List ScoredCandidate}
    (hs : SampleOk sample) {candidates : List Candidate} {d t : String}
    {limit : Nat} {sc : ScoredCandidate}
    (h : sc ∈ (match_candidates sample candidates d t limit).top_candidates) :
    ∃ c ∈ candidates, sc = scoreCandidate (effectiveRequirements d t) c := by
  simp only [match_candidates] at h
  rw [mem_sortByScore] at h
  have hw : sc ∈ (sortByScore (candidates.map (scoreCandidate
      (effectiveRequirements d t)))).take
      (min (sortByScore (candidates.map (scoreCandidate
        (effectiveRequirements d t)))).length
        (max (limit * 5) limit)) := by
    split at h
    · exact h
    · exact hs _ _ _ h
  have hm : sc ∈ sortByScore (candidates.map (scoreCandidate
      (effectiveRequirements d t))) :=
    List.mem_of_mem_take hw
  rw [mem_sortByScore] at hm
  obtain ⟨c, hc, hce⟩ := List.mem_map.mp hm
  exact ⟨c, hc, hce.symm⟩

lemma matchReasons_len (r : Requirements) (c : Candidate) :
    1 ≤ (matchReasons r c).length ∧ (matchReasons r c).length ≤ 4 := by
  simp only [matchReasons]
  constructor
  · rw [List.length_take]
    refine le_min (by norm_num) ?_
    simp only [List.length_append, List.length_singleton]
    omega
  · rw [List.length_take]
    exact min_le_left _ _

/-- C10: every scored result a match_candidates call can return carries
between one and four match reasons, because the experience reason is
appended unconditionally for every candidate before the reason list is
truncated to four entries; the sampler is assumed to return elements of
its input population, as the sample function of the random module
does. -/
theorem match_reasons_nonempty
    (sample : List ScoredCandidate → Nat → List ScoredCandidate)
    (hs : SampleOk sample) (candidates : List Candidate)
    (job_description job_title : String) (limit : Nat) :
    ∀ sc ∈ (match_candidates sample candidates job_description job_title
        limit).top_candidates,
      1 ≤ sc.match_reasons.length ∧ sc.match_reasons.length ≤ 4 := by
  intro sc hsc
  obtain ⟨c, _hc, rfl⟩ := mem_top_candidates hs hsc
  exact matchReasons_len _ _

unseal Rat.add Rat.mul Rat.sub Rat.inv Rat.ofScientific in
/-- Witness for C10 at a concrete pool, description and sampler. -/
theorem match_reasons_nonempty_witness :
    1 ≤ (scoreCandidate (effectiveRequirements ("python") (""))
        reactOnly).match_reasons.length ∧
      (scoreCandidate (effectiveRequirements ("python") (""))
        reactOnly).match_reasons.length ≤ 4 :=
  match_reasons_nonempty (fun xs n => xs.take n) sampleTake_ok [reactOnly]
    ("python") ("") 8
    (scoreCandidate (effectiveRequirements ("python") ("")) reactOnly)
    (by decide)

/-!
Claim C1.
-/

/-- Location bonus as the claim words it: 0.05 exactly when a requested
location is present and occurs case-insensitively as a substring of the
candidate location, with no further truthiness checks.  The claim proof
shows this coincides with the bonus of locationPart, which carries the
truthiness checks of the source, whenever the requirements were produced
by extract_requirements. -/
def claimLocationBonus (requirements : Requirements) (c : Candidate) : ℚ :=
  match requirements.location, c.location with
  | some l, some cl => if strIn l (pyLower cl) then 0.05 else 0
  | _, _ => 0

lemma effectiveRequirements_location (d t : String) :
    (effectiveRequirements d t).location = (extract_requirements d).location := by
  by_cases ht : t = "" <;> simp [effectiveRequirements, ht]

lemma location_keywords_ne_empty : ∀ l ∈ location_keywords, l.data ≠ [] := by
  decide

lemma extract_location_mem {d : String} {l : String}
    (h : (extract_requirements d).location = some l) : l ∈ location_keywords := by
  simp only [extract_requirements] at h
  exact List.mem_of_find?_eq_some h

lemma startsSeg_nil_right {cs : List Char} (h : cs ≠ []) :
    startsSeg cs [] = false := by
  cases cs with
  | nil => exact absurd rfl h
  | cons a as => rfl

lemma strIn_lower_empty {l : String} (h : l.data ≠ []) :
    strIn l (pyLower ("")) = false := startsSeg_nil_right h

lemma locationPart_claim (d t : String) (c : Candidate) :
    (locationPart (effectiveRequirements d t) c).1
      = claimLocationBonus (effectiveRequirements d t) c := by
  rw [locationPart, claimLocationBonus, effectiveRequirements_location]
  rcases hl : (extract_requirements d).location with _ | l
  · rcases c.location with _ | cl <;> rfl
  · rcases hcl : c.location with _ | cl
    · rfl
    · dsimp only
      have hld : l.data ≠ [] := location_keywords_ne_empty l (extract_location_mem hl)
      have hlne : l ≠ "" := fun h0 => hld (by rw [h0])
      by_cases hstr : strIn l (pyLower cl) = true
      · have hclne : cl ≠ "" := by
          intro h0
          rw [h0, strIn_lower_empty hld] at hstr
          exact Bool.false_ne_true hstr
        rw [if_pos ⟨hlne, hclne, hstr⟩, if_pos hstr]
      · have hcond : ¬(l ≠ "" ∧ cl ≠ "" ∧ strIn l (pyLower cl) = true) :=
          fun hc => hstr hc.2.2
        rw [if_neg hcond, if_neg hstr]

lemma scoreCandidate_match_score (r : Requirements) (c : Candidate) :
    (scoreCandidate r c).match_score
      = pyRound1 (pyMin ((calculate_skill_match c r.skills).1 * 0.5
          + (calculate_experience_match c r).1 * 0.3
          + (calculate_github_activity_score c).1 * 0.2
          + (locationPart r c).1 + ossBonus r c) 1 * 100) := rfl

lemma scoreCandidate_candidate (r : Requirements) (c : Candidate) :
    (scoreCandidate r c).candidate = c := rfl

unseal Rat.add Rat.mul Rat.sub Rat.inv Rat.ofScientific in
/-- C1: for every entry of the response, the stored match score equals
round to one decimal of 100 times the minimum of 1 and the sum 0.5 times
the skill score plus 0.3 times the experience score plus 0.2 times the
activity score plus a location bonus of 0.05 exactly when the requested
location is present and is a case-insensitive substring of the candidate
location plus an open source bonus of 0.05 exactly when open source is
preferred and the candidate is a contributor, where the component scores
are the unrounded results of the three calculate functions; and the
instance with all components 1 and no bonuses evaluates to exactly
100. -/
theorem match_score_formula
    (sample : List ScoredCandidate → Nat → List ScoredCandidate)
    (hs : SampleOk sample) (candidates : List Candidate)
    (job_description job_title : String) (limit : Nat) :
    (∀ sc ∈ (match_candidates sample candidates job_description job_title
        limit).top_candidates,
      sc.match_score = pyRound1 (min
        (0.5 * (calculate_skill_match sc.candidate
            (effectiveRequirements job_description job_title).skills).1
          + 0.3 * (calculate_experience_match sc.candidate
            (effectiveRequirements job_description job_title)).1
          + 0.2 * (calculate_github_activity_score sc.candidate).1
          + claimLocationBonus (effectiveRequirements job_description job_title)
              sc.candidate
          + ossBonus (effectiveRequirements job_description job_title)
              sc.candidate) 1 * 100)) ∧
      pyRound1 (min (0.5 * 1 + 0.3 * 1 + 0.2 * 1 + 0 + 0) 1 * 100) = 100 := by
  have harg : ∀ s e a lb ob : ℚ,
      s * 0.5 + e * 0.3 + a * 0.2 + lb + ob
        = 0.5 * s + 0.3 * e + 0.2 * a + lb + ob := by
    intro s e a lb ob
    ring
  constructor
  · intro sc hsc
    obtain ⟨c, _hc, rfl⟩ := mem_top_candidates hs hsc
    rw [scoreCandidate_candidate, scoreCandidate_match_score, pyMin_eq_min,
      locationPart_claim, harg]
  · rw [← pyMin_eq_min]
    decide

unseal Rat.add Rat.mul Rat.sub Rat.inv Rat.ofScientific in
/-- Witness for C1 at a concrete pool, description and sampler. -/
theorem match_score_formula_witness :
    (scoreCandidate (effectiveRequirements ("python") ("")) reactOnly).match_score
      = pyRound1 (min
          (0.5 * (calculate_skill_match reactOnly
              (effectiveRequirements ("python") ("")).skills).1
            + 0.3 * (calculate_experience_match reactOnly
              (effectiveRequirements ("python") (""))).1
            + 0.2 * (calculate_github_activity_score reactOnly).1
            + claimLocationBonus (effectiveRequirements ("python") ("")) reactOnly
            + ossBonus (effectiveRequirements ("python") ("")) reactOnly)
          1 * 100) := by
  have h := (match_score_formula (fun xs n => xs.take n) sampleTake_ok [reactOnly]
    ("python") ("") 8).1
    (scoreCandidate (effectiveRequirements ("python") ("")) reactOnly) (by decide)
  simpa [scoreCandidate_candidate] using h

end CandidateMatcher
